import Mathlib

/-!
# serializer-app: bootstrap of a telemetry serializer

A shallow embedding of `main.go`: the accessor facade
(`orchestratorinterfaceimpl`), the configuration text rendered by
`newSerializer`, the staged bootstrap with its deferred clean-up, and `main`.

Go strings are modelled by `String`; external collaborators (the operating
system calls, `fx.New`, the forwarder, the serializer) are modelled by their
observable outcomes, supplied by a record of outcomes.
-/

namespace SerializerApp

/-! ## Accessor facade (main.go:105-121) -/

/-- Facade struct `orchestratorinterfaceimpl`: one field `f`, a forwarder
reference that may be nil (`none`). -/
structure orchestratorinterfaceimpl (Forwarder : Type) where
  f : Option Forwarder
deriving DecidableEq, Repr

/-- Constructor `NewOrchestratorinterfaceimpl(f)`: stores `f` in the field. -/
def NewOrchestratorinterfaceimpl {Forwarder : Type} (f : Option Forwarder) :
    orchestratorinterfaceimpl Forwarder :=
  { f := f }

/-- Method `Get`: `return o.f, true`. -/
def orchestratorinterfaceimpl.Get {Forwarder : Type}
    (o : orchestratorinterfaceimpl Forwarder) : Option Forwarder × Bool :=
  (o.f, true)

/-- Method `Reset`: `o.f = nil`; the result is the facade after the call. -/
def orchestratorinterfaceimpl.Reset {Forwarder : Type}
    (o : orchestratorinterfaceimpl Forwarder) : orchestratorinterfaceimpl Forwarder :=
  { o with f := none }

/-! ## Formatting (fmt.Sprintf / fmt.Printf with `%s` verbs) -/

/-- Expansion of a format over its arguments, on character lists: `%s`
or `%v` is replaced by the next argument (already rendered as text), `%%` by a
percent sign, a `%s` without an argument by Go's `%!s(MISSING)`; every other
character is copied. The call sites of the program pass exactly as many
arguments as there are verbs. -/
def sprintfAux : List Char → List String → List Char
  | [], _ => []
  | c :: rest, args =>
    if c = '%' then
      match rest, args with
      | 's' :: rest', a :: args' => a.data ++ sprintfAux rest' args'
      | 's' :: rest', [] => "%!s(MISSING)".data ++ sprintfAux rest' []
      | 'v' :: rest', a :: args' => a.data ++ sprintfAux rest' args'
      | '%' :: rest', args' => '%' :: sprintfAux rest' args'
      | rest', args' => '%' :: sprintfAux rest' args'
    else c :: sprintfAux rest args

/-- Go `fmt.Sprintf(format, args...)` for string arguments. -/
def Sprintf (format : String) (args : List String) : String :=
  ⟨sprintfAux format.data args⟩

/-- The format literal of `yamldata` (main.go:36-43). -/
def yamlFormat : String :=
  "logs_enabled: true\nlog_level: %s\nsite: %s\napi_key: %s\napm_config:\n  enabled: true\n  apm_non_local_traffic: true\nforwarder_timeout: 10"

/-- Value `yamldata` of `newSerializer`: the format applied to
`set.Logger.Level().String()`, `cfg.API.Site` and `cfg.API.Key`. -/
def yamldata (level site key : String) : String :=
  Sprintf yamlFormat [level, site, key]

/-! ## Reading the rendered document line by line -/

/-- Lines of a text: the maximal runs of characters between line feeds. -/
def splitLines : List Char → List (List Char)
  | [] => [[]]
  | c :: cs =>
    if c = '\n' then [] :: splitLines cs
    else
      match splitLines cs with
      | [] => [[c]]
      | l :: ls => (c :: l) :: ls

/-- Lines of a string. -/
def lines (text : String) : List String :=
  (splitLines text.data).map String.mk

/-- A string has no line break. -/
def noLineBreak (s : String) : Prop := '\n' ∉ s.data

instance (s : String) : Decidable (noLineBreak s) := by
  unfold noLineBreak; infer_instance

/-- Remainder of a line after a leading key text, when the line starts with it. -/
def stripKey : List Char → List Char → Option (List Char)
  | [], l => some l
  | _ :: _, [] => none
  | k :: ks, c :: cs => if k = c then stripKey ks cs else none

/-- Values read back from a text: the remainders of all lines that start
with the key text `k`, in order. -/
def valuesOf (k : String) (text : String) : List String :=
  (lines text).filterMap (fun l => (stripKey k.data l.data).map String.mk)

/-- Number of leading spaces of a line. -/
def indentOf : List Char → Nat
  | [] => 0
  | c :: cs => if c = ' ' then indentOf cs + 1 else 0

/-- Line without its leading spaces. -/
def dropSpaces : List Char → List Char
  | [] => []
  | c :: cs => if c = ' ' then dropSpaces cs else c :: cs

/-- Split at the first colon: the characters before it and those after it. -/
def splitColon : List Char → Option (List Char × List Char)
  | [] => none
  | c :: cs =>
    if c = ':' then some ([], cs)
    else (splitColon cs).map (fun kv => (c :: kv.1, kv.2))

/-- An entry of the document: indentation, key, value. -/
structure Entry where
  indent : Nat
  key : String
  value : String
deriving DecidableEq, Repr

/-- Entry of a line: its indentation, the key before the first colon and the
value after it (leading spaces dropped); `none` for a line without a colon. -/
def parseLine (l : String) : Option Entry :=
  (splitColon (dropSpaces l.data)).map
    (fun kv => { indent := indentOf l.data, key := ⟨kv.1⟩, value := ⟨dropSpaces kv.2⟩ })

/-- Entries of a text, line by line. -/
def entries (text : String) : List Entry :=
  (lines text).filterMap parseLine

/-- Number of lines of the text whose key is `k` (at any indentation). -/
def keyCount (k : String) (text : String) : Nat :=
  ((entries text).filter (fun e => e.key = k)).length

/-- Values of the top-level (unindented) entries with key `k`. -/
def topValues (k : String) (text : String) : List String :=
  ((entries text).filter (fun e => e.indent = 0 ∧ e.key = k)).map (·.value)

/-- The indented entries that directly follow the first top-level entry with key `k`. -/
def childrenOf (k : String) : List Entry → List (String × String)
  | [] => []
  | e :: es =>
    if e.indent = 0 ∧ e.key = k then
      (es.takeWhile (fun c => 0 < c.indent)).map (fun c => (c.key, c.value))
    else childrenOf k es

/-! ## Operating system, collaborators and observable actions -/

/-- Go `error` values, identified with their message (`err.Error()`). -/
abbrev Error := String

/-- File-system paths, as lists of components. -/
abbrev Path := List String

/-- What a path holds. -/
inductive Node where
  | dir
  | file (content : String)
deriving DecidableEq, Repr

/-- File-system state: what each path holds, `none` when it does not exist. -/
abbrev FS := Path → Option Node

/-- Path `p` is `d` itself or lies beneath it. -/
def isUnder (d p : Path) : Bool := d.isPrefixOf p

/-- Every existing path lies beneath existing paths only. -/
def FS.wellFormed (fs : FS) : Prop :=
  ∀ d p, isUnder d p = true → fs d = none → fs p = none

/-- File-system state with `p` holding `n`. -/
def FS.set (fs : FS) (p : Path) (n : Node) : FS :=
  fun q => if q = p then some n else fs q

/-- Reference to the `*serializer.Serializer` built by the component graph. -/
structure Serializer where
  ref : Nat
deriving DecidableEq, Repr

/-- Result of `s.SendIterableSeries(nil)`: a nil error, an error, or a
run-time panic (as a call on a nil receiver may end). -/
inductive SendResult where
  | ok
  | err (e : Error)
  | panicked
deriving DecidableEq, Repr

/-- Calls made by the program, in the order it makes them. -/
inductive Event where
  | mkdirTemp
  | create (file : Path)
  | writeString (file : Path)
  | fxNew (configFile : Path)
  | print (line : String)
  | go
  | start
  | close (file : Path)
  | removeAll (dir : Path)
  | sendIterableSeries (s : Option Serializer)
deriving DecidableEq, Repr

/-- State threaded through the program: the file system, the calls made so
far by the calling thread (oldest first) and the calls made by the goroutine
launched with `go`. -/
structure World where
  fs : FS
  trace : List Event
  spawned : List Event

/-- Record a call of the calling thread. -/
def World.call (w : World) (e : Event) : World :=
  { w with trace := w.trace ++ [e] }

/-- Calls of the calling thread made between state `w` and a later state `w2`. -/
def eventsSince (w w2 : World) : List Event := w2.trace.drop w.trace.length

/-- Calls of the goroutine made between state `w` and a later state `w2`. -/
def spawnedSince (w w2 : World) : List Event := w2.spawned.drop w.spawned.length

/-- Outcomes of the calls into the operating system and the collaborating
components, as the program observes them when it makes the call. -/
structure Outcomes where
  /-- Directory `os.TempDir()`. -/
  tempRoot : Path
  /-- Random suffix chosen by `os.MkdirTemp`. -/
  suffix : String
  /-- Error of `os.MkdirTemp` other than a missing root or a name clash. -/
  mkdirTemp : Option Error
  /-- Error of `os.Create`. -/
  create : Option Error
  /-- Error of `io.WriteString`. -/
  write : Option Error
  /-- Number of characters that reached the file when the write failed. -/
  shortWrite : Nat
  /-- What building the component graph (`fx.New`, which is given the path of
  the configuration file) does to the file system. -/
  graphEffect : Path → FS → FS
  /-- Value of `app.Err()` after `fx.New`. -/
  appErr : Option Error
  /-- Serializer stored in `s` by `fx.Populate(&s)` when resolution succeeds. -/
  populated : Serializer
  /-- Error of `f.Start()`. -/
  start : Option Error
  /-- What `f.Start()` does to the file system. -/
  startEffect : FS → FS
  /-- Error of the deferred `os.RemoveAll`; the program discards it. -/
  removeAll : Option Error
  /-- Paths beneath the directory that a failing `os.RemoveAll` leaves in place. -/
  survives : Path → Bool
  /-- Result of `SendIterableSeries(nil)` on a given receiver. -/
  send : Option Serializer → SendResult
  /-- Rendering of a non-nil serializer pointer under `%v`. -/
  render : Serializer → String

/-- Directory that `os.MkdirTemp("", "conf")` creates: `conf<suffix>` under the
temporary root. -/
def tempDirOf (o : Outcomes) : Path := o.tempRoot ++ ["conf" ++ o.suffix]

/-- Call `os.MkdirTemp("", "conf")`: a new directory `conf<suffix>` under the
temporary root, or an error; it never returns a directory that existed. -/
def osMkdirTemp (o : Outcomes) (fs : FS) : Except Error (Path × FS) :=
  match o.mkdirTemp with
  | some e => .error e
  | none =>
    if fs o.tempRoot ≠ some Node.dir then .error "no such file or directory"
    else if (fs (tempDirOf o)).isSome then .error "file exists"
    else .ok (tempDirOf o, fs.set (tempDirOf o) Node.dir)

/-- Call `os.RemoveAll(dir)`: when it succeeds, `dir` and everything beneath
it are removed; when it fails, it has removed what it could and the paths
that survive stay in place. The error itself is returned to the caller, which
in this program discards it. -/
def osRemoveAll (o : Outcomes) (dir : Path) (fs : FS) : FS :=
  match o.removeAll with
  | none => fun q => if isUnder dir q then none else fs q
  | some _ => fun q => if isUnder dir q && !o.survives q then none else fs q

/-- An effect on the file system leaves every path outside `d` as it was. -/
def leavesOutside (d : Path) (effect : FS → FS) : Prop :=
  ∀ fs p, isUnder d p = false → effect fs p = fs p

/-- Call `filepath.Join(dir, name)`. -/
def filepathJoin (dir : Path) (name : String) : Path := dir ++ [name]

/-- Struct `API`. -/
structure API where
  Site : String
  Key : String
deriving DecidableEq, Repr

/-- Struct `Config`. -/
structure Config where
  API : API
deriving DecidableEq, Repr

/-- Part of `component.TelemetrySettings` the program reads: the text of
`set.Logger.Level().String()`. -/
structure TelemetrySettings where
  LoggerLevel : String
deriving DecidableEq, Repr

/-- Line printed when `f.Start()` fails (main.go:99). -/
def startErrorLine (e : Error) : String :=
  Sprintf "### error starting forwarder: %s\n" [e]

/-- Line printed by `main` when `newSerializer` fails (main.go:138). -/
def bootstrapErrorLine (e : Error) : String :=
  Sprintf "### error: %s\n" [e]

/-- Line printed by `main` when `SendIterableSeries` fails (main.go:143). -/
def submissionErrorLine (e : Error) : String :=
  Sprintf "### error: %s\n" [e]

/-- Operand `s` under `%v`: `<nil>` for a nil pointer. -/
def showSerializer (o : Outcomes) : Option Serializer → String
  | none => "<nil>"
  | some s => o.render s

/-- Line printed by `main` after `newSerializer` (main.go:140). -/
def serializerLine (o : Outcomes) (s : Option Serializer) : String :=
  Sprintf "### serializer: %v\n" [showSerializer o s]

/-- Body of the goroutine of `newSerializer` (main.go:96-101). Its calls go to
the log of the goroutine; what `Start` does to files is applied at the launch,
the schedule in which it is visible when `newSerializer` returns. -/
def startForwarder (o : Outcomes) (w : World) : World :=
  match o.start with
  | some e =>
    { w with fs := o.startEffect w.fs,
             spawned := w.spawned ++ [Event.start, Event.print (startErrorLine e)] }
  | none => { w with fs := o.startEffect w.fs, spawned := w.spawned ++ [Event.start] }

/-- Function `newSerializer` from the write on (main.go:59-102), run with the
file open; the deferred calls are made by the callers. -/
def newSerializerWrite (o : Outcomes) (yamldata : String) (tempFilePath : Path)
    (w : World) : (Option Serializer × Option Error) × World :=
  let w := w.call (Event.writeString tempFilePath)
  match o.write with
  | some e =>
    ((none, some e),
      { w with fs := w.fs.set tempFilePath (Node.file ⟨yamldata.data.take o.shortWrite⟩) })
  | none =>
    let w := { w with fs := w.fs.set tempFilePath (Node.file yamldata) }
    let w := w.call (Event.fxNew tempFilePath)
    let w := { w with fs := o.graphEffect tempFilePath w.fs }
    let w := w.call (Event.print (Sprintf "### done with app\n" []))
    match o.appErr with
    | some e => ((none, some e), w)
    | none =>
      let w := startForwarder o (w.call Event.go)
      ((some o.populated, none), w)

/-- Function `newSerializer` from the file creation on (main.go:52-102), run
inside the temporary directory; `defer tempFile.Close()` runs when the rest
has returned. -/
def newSerializerCreate (o : Outcomes) (yamldata : String) (tempDir : Path)
    (w : World) : (Option Serializer × Option Error) × World :=
  let tempFilePath := filepathJoin tempDir "datadog.yaml"
  let w := w.call (Event.create tempFilePath)
  match o.create with
  | some e => ((none, some e), w)
  | none =>
    let w := { w with fs := w.fs.set tempFilePath (Node.file "") }
    let r := newSerializerWrite o yamldata tempFilePath w
    (r.1, r.2.call (Event.close tempFilePath))

/-- Function `newSerializer` (main.go:32-103); `defer os.RemoveAll(tempDir)`
runs when the rest has returned. -/
def newSerializer (o : Outcomes) (set : TelemetrySettings) (cfg : Config)
    (w : World) : (Option Serializer × Option Error) × World :=
  let yamldata := yamldata set.LoggerLevel cfg.API.Site cfg.API.Key
  let w := w.call Event.mkdirTemp
  match osMkdirTemp o w.fs with
  | .error e => ((none, some e), w)
  | .ok (tempDir, fs) =>
    let r := newSerializerCreate o yamldata tempDir { w with fs := fs }
    let w := r.2.call (Event.removeAll tempDir)
    (r.1, { w with fs := osRemoveAll o tempDir w.fs })

/-- Environment of `main`: the value of `DD_API_KEY` (empty when unset) and
the level text of the logger built by `zap.NewNop()`. -/
structure Env where
  DD_API_KEY : String
  nopLevel : String

/-- Function `main` (main.go:123-145). -/
def main (o : Outcomes) (env : Env) (w : World) : World :=
  let set : TelemetrySettings := { LoggerLevel := env.nopLevel }
  let api := env.DD_API_KEY
  let cfg : Config := { API := { Site := "datadoghq.com", Key := api } }
  let r := newSerializer o set cfg w
  let s := r.1.1
  let w :=
    match r.1.2 with
    | some e => r.2.call (Event.print (bootstrapErrorLine e))
    | none => r.2
  let w := w.call (Event.print (serializerLine o s))
  let w := w.call (Event.sendIterableSeries s)
  match o.send s with
  | SendResult.err e => w.call (Event.print (submissionErrorLine e))
  | _ => w

/-- The event is a call of `SendIterableSeries`. -/
def Event.isSend : Event → Bool
  | Event.sendIterableSeries _ => true
  | _ => false

/-- Error reported by `os.MkdirTemp` in file-system state `fs`, `none` when
it succeeds. -/
def mkdirTempErr (o : Outcomes) (fs : FS) : Option Error :=
  match osMkdirTemp o fs with
  | .error e => some e
  | .ok _ => none

/-- All four stages of `newSerializer` succeed from file-system state `fs`. -/
def stagesSucceed (o : Outcomes) (fs : FS) : Prop :=
  mkdirTempErr o fs = none ∧ o.create = none ∧ o.write = none ∧ o.appErr = none

instance (o : Outcomes) (fs : FS) : Decidable (stagesSucceed o fs) := by
  unfold stagesSucceed; infer_instance

/-! ## Sample inputs -/

/-- A file system holding the root and `/tmp`. -/
def sampleFS : FS :=
  fun p => if p = [] then some Node.dir else if p = ["tmp"] then some Node.dir else none

/-- Outcomes in which every call succeeds and the collaborators write no file. -/
def sampleOutcomes : Outcomes :=
  { tempRoot := ["tmp"], suffix := "123", mkdirTemp := none, create := none, write := none,
    shortWrite := 0, graphEffect := fun _ fs => fs, appErr := none, populated := ⟨7⟩,
    start := none, startEffect := fun fs => fs, removeAll := none, survives := fun _ => true,
    send := fun s => if s.isSome then SendResult.ok else SendResult.panicked,
    render := fun _ => "&\x7b...\x7d" }

/-- An initial state over the sample file system. -/
def sampleWorld : World := { fs := sampleFS, trace := [], spawned := [] }

/-- Settings with log level `info`. -/
def sampleSet : TelemetrySettings := { LoggerLevel := "info" }

/-- Configuration of `main` with an empty credential. -/
def sampleCfg : Config := { API := { Site := "datadoghq.com", Key := "" } }

/-! ## Accessor facade -/

/-- C1 (the code at the claim's input): for every facade state, `Reset()`
followed by `Get()` returns the nil reference together with `true`; the
boolean result is not `false`. -/
theorem reset_get_reports_present {Forwarder : Type}
    (o : orchestratorinterfaceimpl Forwarder) :
    o.Reset.Get = (none, true) ∧ o.Reset.Get.2 ≠ false := by
  constructor
  · rfl
  · simp [orchestratorinterfaceimpl.Get]

/-- C2: for every forwarder reference `f`, the facade built by
`NewOrchestratorinterfaceimpl(f)` answers `Get()` with `(f, true)`. -/
theorem new_get_returns_forwarder {Forwarder : Type} (f : Option Forwarder) :
    (NewOrchestratorinterfaceimpl f).Get = (f, true) := rfl

/-! ## The rendered configuration text -/

/-- A text without a line feed is its own single line. -/
theorem splitLines_single (a : List Char) (h : '\n' ∉ a) : splitLines a = [a] := by
  induction a with
  | nil => rfl
  | cons c cs ih =>
    have hc : c ≠ '\n' := fun e => h (by simp [e])
    have hcs : '\n' ∉ cs := fun e => h (by simp [e])
    simp [splitLines, hc, ih hcs]

/-- The first line of a text is what stands before its first line feed. -/
theorem splitLines_append (a rest : List Char) (h : '\n' ∉ a) :
    splitLines (a ++ '\n' :: rest) = a :: splitLines rest := by
  induction a with
  | nil => simp [splitLines]
  | cons c cs ih =>
    have hc : c ≠ '\n' := fun e => h (by simp [e])
    have hcs : '\n' ∉ cs := fun e => h (by simp [e])
    simp [splitLines, hc, ih hcs]

set_option maxRecDepth 100000 in
/-- The rendered text, line by line, with the three inputs in place. -/
theorem yamldata_data (L S K : String) : (yamldata L S K).data =
    "logs_enabled: true".data ++ '\n' :: (("log_level: ".data ++ L.data) ++ '\n' ::
      (("site: ".data ++ S.data) ++ '\n' :: (("api_key: ".data ++ K.data) ++ '\n' ::
        ("apm_config:".data ++ '\n' :: ("  enabled: true".data ++ '\n' ::
          ("  apm_non_local_traffic: true".data ++ '\n' :: "forwarder_timeout: 10".data)))))) := by
  simp only [List.append_assoc]
  rfl

/-- For inputs without a line break the rendered text has exactly eight lines. -/
theorem lines_yamldata (L S K : String) (hL : noLineBreak L) (hS : noLineBreak S)
    (hK : noLineBreak K) :
    lines (yamldata L S K) =
      ["logs_enabled: true", "log_level: " ++ L, "site: " ++ S, "api_key: " ++ K,
       "apm_config:", "  enabled: true", "  apm_non_local_traffic: true",
       "forwarder_timeout: 10"] := by
  unfold noLineBreak at hL hS hK
  unfold lines
  rw [yamldata_data]
  rw [splitLines_append _ _ (by decide), splitLines_append _ _ (by simp [hL]),
    splitLines_append _ _ (by simp [hS]), splitLines_append _ _ (by simp [hK]),
    splitLines_append _ _ (by decide), splitLines_append _ _ (by decide),
    splitLines_append _ _ (by decide), splitLines_single _ (by decide)]
  simp [String.ext_iff]

/-- The entries of the rendered text for inputs without a line break. -/
theorem entries_yamldata (L S K : String) (hL : noLineBreak L) (hS : noLineBreak S)
    (hK : noLineBreak K) :
    entries (yamldata L S K) =
      [⟨0, "logs_enabled", "true"⟩, ⟨0, "log_level", ⟨dropSpaces L.data⟩⟩,
       ⟨0, "site", ⟨dropSpaces S.data⟩⟩, ⟨0, "api_key", ⟨dropSpaces K.data⟩⟩,
       ⟨0, "apm_config", ""⟩, ⟨2, "enabled", "true"⟩,
       ⟨2, "apm_non_local_traffic", "true"⟩, ⟨0, "forwarder_timeout", "10"⟩] := by
  unfold entries
  rw [lines_yamldata L S K hL hS hK]
  simp [parseLine, splitColon, dropSpaces, indentOf]

/-- C3: for every log level, site and credential without a line break, the
lines of the rendered text that start with `log_level: `, `site: ` and
`api_key: ` are one each, and what follows the key is exactly the input log
level, site and credential (the empty credential included). -/
theorem yamldata_round_trip (level site key : String) (hL : noLineBreak level)
    (hS : noLineBreak site) (hK : noLineBreak key) :
    valuesOf "log_level: " (yamldata level site key) = [level] ∧
    valuesOf "site: " (yamldata level site key) = [site] ∧
    valuesOf "api_key: " (yamldata level site key) = [key] := by
  unfold valuesOf
  rw [lines_yamldata level site key hL hS hK]
  simp [stripKey]

set_option maxRecDepth 100000 in
/-- C3 at the scenario of the specification: site `datadoghq.com`, empty
credential, log level `info`. -/
theorem yamldata_round_trip_witness :
    (noLineBreak "info" ∧ noLineBreak "datadoghq.com" ∧ noLineBreak "") ∧
    valuesOf "log_level: " (yamldata "info" "datadoghq.com" "") = ["info"] ∧
    valuesOf "site: " (yamldata "info" "datadoghq.com" "") = ["datadoghq.com"] ∧
    valuesOf "api_key: " (yamldata "info" "datadoghq.com" "") = [""] :=
  ⟨by decide, yamldata_round_trip "info" "datadoghq.com" "" (by decide) (by decide) (by decide)⟩

set_option maxRecDepth 100000 in
/-- C8 as stated fails: a site text with a line break puts a second line with
key `site` into the rendered text. -/
theorem yamldata_schema_counterexample :
    ¬ (keyCount "site" (yamldata "info" "a\nsite: b" "") = 1) := by
  decide

/-- C8 (amended): for every log level, site and credential without a line
break, each of the keys `logs_enabled`, `log_level`, `site`, `api_key`,
`apm_config`, `enabled`, `apm_non_local_traffic` and `forwarder_timeout` is
the key of exactly one line of the rendered text, `logs_enabled` carries
`true`, `forwarder_timeout` carries `10`, and the entries beneath `apm_config`
are `enabled: true` and `apm_non_local_traffic: true`. -/
theorem yamldata_schema (level site key : String) (hL : noLineBreak level)
    (hS : noLineBreak site) (hK : noLineBreak key) :
    (keyCount "logs_enabled" (yamldata level site key) = 1 ∧
     keyCount "log_level" (yamldata level site key) = 1 ∧
     keyCount "site" (yamldata level site key) = 1 ∧
     keyCount "api_key" (yamldata level site key) = 1 ∧
     keyCount "apm_config" (yamldata level site key) = 1 ∧
     keyCount "enabled" (yamldata level site key) = 1 ∧
     keyCount "apm_non_local_traffic" (yamldata level site key) = 1 ∧
     keyCount "forwarder_timeout" (yamldata level site key) = 1) ∧
    topValues "logs_enabled" (yamldata level site key) = ["true"] ∧
    topValues "forwarder_timeout" (yamldata level site key) = ["10"] ∧
    childrenOf "apm_config" (entries (yamldata level site key)) =
      [("enabled", "true"), ("apm_non_local_traffic", "true")] := by
  unfold keyCount topValues
  rw [entries_yamldata level site key hL hS hK]
  refine ⟨⟨?_, ?_, ?_, ?_, ?_, ?_, ?_, ?_⟩, ?_, ?_, ?_⟩ <;> simp [childrenOf, List.filter]

set_option maxRecDepth 100000 in
/-- C8 (amended) at site `datadoghq.com`, empty credential, log level `info`. -/
theorem yamldata_schema_witness :
    (noLineBreak "info" ∧ noLineBreak "datadoghq.com" ∧ noLineBreak "") ∧
    keyCount "site" (yamldata "info" "datadoghq.com" "") = 1 ∧
    topValues "forwarder_timeout" (yamldata "info" "datadoghq.com" "") = ["10"] :=
  ⟨by decide,
   (yamldata_schema "info" "datadoghq.com" "" (by decide) (by decide) (by decide)).1.2.2.1,
   (yamldata_schema "info" "datadoghq.com" "" (by decide) (by decide) (by decide)).2.2.1⟩

/-! ## Diagnostic lines -/

/-- C9 as stated fails: for the message `boom` the line of a bootstrap failure
and the line of a submission failure are the same, so the three lines are not
pairwise different. -/
theorem diagnostic_lines_counterexample :
    ¬ (bootstrapErrorLine "boom" ≠ startErrorLine "boom" ∧
       bootstrapErrorLine "boom" ≠ submissionErrorLine "boom" ∧
       startErrorLine "boom" ≠ submissionErrorLine "boom") := by
  intro h
  exact h.2.1 rfl

/-- C9 (amended): for all error messages, the line of a forwarder-start
failure differs from the line of a bootstrap failure and from the line of a
submission failure; the lines of a bootstrap failure and of a submission
failure with the same message are the same text. -/
theorem diagnostic_lines (e e2 : Error) :
    startErrorLine e ≠ bootstrapErrorLine e2 ∧
    startErrorLine e ≠ submissionErrorLine e2 ∧
    bootstrapErrorLine e = submissionErrorLine e := by
  have h : ∀ a b : List Char,
      sprintfAux "### error starting forwarder: %s\n".data [⟨a⟩] ≠
        sprintfAux "### error: %s\n".data [⟨b⟩] := by
    intro a b hab
    have h1 : sprintfAux "### error starting forwarder: %s\n".data [⟨a⟩] =
        "### error starting forwarder: ".data ++ (a ++ ['\n']) := rfl
    have h2 : sprintfAux "### error: %s\n".data [⟨b⟩] =
        "### error: ".data ++ (b ++ ['\n']) := rfl
    rw [h1, h2] at hab
    simp at hab
  refine ⟨?_, ?_, rfl⟩
  · intro hab
    exact h e.data e2.data (String.ext_iff.mp hab)
  · intro hab
    exact h e.data e2.data (String.ext_iff.mp hab)

/-! ## The staged bootstrap -/

/-- A successful `os.MkdirTemp` returns a path that did not exist and creates
it as a directory. -/
theorem osMkdirTemp_ok (o : Outcomes) (fs : FS) (d : Path) (fs1 : FS)
    (h : osMkdirTemp o fs = .ok (d, fs1)) :
    fs d = none ∧ fs1 = fs.set d Node.dir ∧ mkdirTempErr o fs = none := by
  have hm : mkdirTempErr o fs = none := by simp [mkdirTempErr, h]
  unfold osMkdirTemp at h
  split at h
  · simp at h
  · split at h
    · simp at h
    · split at h
      · simp at h
      · simp only [Except.ok.injEq, Prod.mk.injEq] at h
        rename_i hs
        refine ⟨?_, ?_, hm⟩
        · rw [← h.1]
          simpa using hs
        · rw [← h.1, ← h.2]

/-- A successful `os.MkdirTemp` returns the directory `conf<suffix>` under the
temporary root. -/
theorem osMkdirTemp_dir (o : Outcomes) (fs : FS) (d : Path) (fs1 : FS)
    (h : osMkdirTemp o fs = .ok (d, fs1)) : d = tempDirOf o := by
  unfold osMkdirTemp at h
  split at h
  · simp at h
  · split at h
    · simp at h
    · split at h
      · simp at h
      · simp only [Except.ok.injEq, Prod.mk.injEq] at h
        exact h.1.symm

/-- A failing `os.MkdirTemp` is the error of the first stage. -/
theorem osMkdirTemp_error (o : Outcomes) (fs : FS) (e : Error)
    (h : osMkdirTemp o fs = .error e) : mkdirTempErr o fs = some e := by
  simp [mkdirTempErr, h]

/-- Run of `newSerializer` when `os.MkdirTemp` fails. -/
theorem newSerializer_mkdir_fails (o : Outcomes) (set : TelemetrySettings) (cfg : Config)
    (w : World) (e : Error) (h : osMkdirTemp o w.fs = .error e) :
    newSerializer o set cfg w =
      ((none, some e), { w with trace := w.trace ++ [Event.mkdirTemp] }) := by
  simp [newSerializer, World.call, h]

/-- Run of `newSerializer` when `os.Create` fails. -/
theorem newSerializer_create_fails (o : Outcomes) (set : TelemetrySettings) (cfg : Config)
    (w : World) (d : Path) (fs1 : FS) (e : Error) (h : osMkdirTemp o w.fs = .ok (d, fs1))
    (hc : o.create = some e) :
    (newSerializer o set cfg w).1 = (none, some e) ∧
    (newSerializer o set cfg w).2.trace = w.trace ++
      [Event.mkdirTemp, Event.create (d ++ ["datadog.yaml"]), Event.removeAll d] ∧
    (newSerializer o set cfg w).2.spawned = w.spawned := by
  simp [newSerializer, newSerializerCreate, filepathJoin, World.call, h, hc]

/-- Run of `newSerializer` when `io.WriteString` fails. -/
theorem newSerializer_write_fails (o : Outcomes) (set : TelemetrySettings) (cfg : Config)
    (w : World) (d : Path) (fs1 : FS) (e : Error) (h : osMkdirTemp o w.fs = .ok (d, fs1))
    (hc : o.create = none) (hw : o.write = some e) :
    (newSerializer o set cfg w).1 = (none, some e) ∧
    (newSerializer o set cfg w).2.trace = w.trace ++
      [Event.mkdirTemp, Event.create (d ++ ["datadog.yaml"]),
       Event.writeString (d ++ ["datadog.yaml"]), Event.close (d ++ ["datadog.yaml"]),
       Event.removeAll d] ∧
    (newSerializer o set cfg w).2.spawned = w.spawned := by
  simp [newSerializer, newSerializerCreate, newSerializerWrite, filepathJoin, World.call, h,
    hc, hw]

/-- Run of `newSerializer` when `app.Err()` is not nil. -/
theorem newSerializer_app_fails (o : Outcomes) (set : TelemetrySettings) (cfg : Config)
    (w : World) (d : Path) (fs1 : FS) (e : Error) (h : osMkdirTemp o w.fs = .ok (d, fs1))
    (hc : o.create = none) (hw : o.write = none) (ha : o.appErr = some e) :
    (newSerializer o set cfg w).1 = (none, some e) ∧
    (newSerializer o set cfg w).2.trace = w.trace ++
      [Event.mkdirTemp, Event.create (d ++ ["datadog.yaml"]),
       Event.writeString (d ++ ["datadog.yaml"]), Event.fxNew (d ++ ["datadog.yaml"]),
       Event.print "### done with app\n", Event.close (d ++ ["datadog.yaml"]),
       Event.removeAll d] ∧
    (newSerializer o set cfg w).2.spawned = w.spawned := by
  simp [newSerializer, newSerializerCreate, newSerializerWrite, filepathJoin, World.call, h,
    hc, hw, ha]
  rfl

/-- Run of `newSerializer` when all four stages succeed. -/
theorem newSerializer_succeeds (o : Outcomes) (set : TelemetrySettings) (cfg : Config)
    (w : World) (d : Path) (fs1 : FS) (h : osMkdirTemp o w.fs = .ok (d, fs1))
    (hc : o.create = none) (hw : o.write = none) (ha : o.appErr = none) :
    (newSerializer o set cfg w).1 = (some o.populated, none) ∧
    (newSerializer o set cfg w).2.trace = w.trace ++
      [Event.mkdirTemp, Event.create (d ++ ["datadog.yaml"]),
       Event.writeString (d ++ ["datadog.yaml"]), Event.fxNew (d ++ ["datadog.yaml"]),
       Event.print "### done with app\n", Event.go, Event.close (d ++ ["datadog.yaml"]),
       Event.removeAll d] ∧
    (newSerializer o set cfg w).2.spawned = w.spawned ++
      (match o.start with
       | some e => [Event.start, Event.print (startErrorLine e)]
       | none => [Event.start]) := by
  cases hs : o.start <;>
  simp [newSerializer, newSerializerCreate, newSerializerWrite, startForwarder, filepathJoin,
    World.call, h, hc, hw, ha, hs] <;> rfl

/-- C4: for every combination of stage outcomes, a failure of the
temporary-directory creation, of the file creation, of the write or of graph
resolution (each with the earlier stages succeeded) makes `newSerializer`
return that stage's error with a nil serializer; the returned error is nil
exactly when all four stages succeed, and then the serializer returned is the
populated one. -/
theorem newSerializer_error_propagation (o : Outcomes) (set : TelemetrySettings)
    (cfg : Config) (w : World) :
    (∀ e, mkdirTempErr o w.fs = some e →
      (newSerializer o set cfg w).1 = (none, some e)) ∧
    (∀ e, mkdirTempErr o w.fs = none → o.create = some e →
      (newSerializer o set cfg w).1 = (none, some e)) ∧
    (∀ e, mkdirTempErr o w.fs = none → o.create = none → o.write = some e →
      (newSerializer o set cfg w).1 = (none, some e)) ∧
    (∀ e, mkdirTempErr o w.fs = none → o.create = none → o.write = none →
      o.appErr = some e → (newSerializer o set cfg w).1 = (none, some e)) ∧
    ((newSerializer o set cfg w).1.2 = none ↔ stagesSucceed o w.fs) ∧
    (stagesSucceed o w.fs → (newSerializer o set cfg w).1 = (some o.populated, none)) ∧
    (¬ stagesSucceed o w.fs → (newSerializer o set cfg w).1.1 = none) := by
  unfold stagesSucceed
  cases hm : osMkdirTemp o w.fs with
  | error e0 =>
    have h1 := newSerializer_mkdir_fails o set cfg w e0 hm
    have h2 := osMkdirTemp_error o w.fs e0 hm
    simp [h1, h2]
  | ok r =>
    obtain ⟨d, fs1⟩ := r
    have h2 := (osMkdirTemp_ok o w.fs d fs1 hm).2.2
    cases hc : o.create with
    | some e1 => simp [(newSerializer_create_fails o set cfg w d fs1 e1 hm hc).1, h2]
    | none =>
      cases hw : o.write with
      | some e2 => simp [(newSerializer_write_fails o set cfg w d fs1 e2 hm hc hw).1, h2]
      | none =>
        cases ha : o.appErr with
        | some e3 =>
          simp [(newSerializer_app_fails o set cfg w d fs1 e3 hm hc hw ha).1, h2]
        | none => simp [(newSerializer_succeeds o set cfg w d fs1 hm hc hw ha).1, h2]

/-- C4 at sample inputs: a failing write (after successful directory and file
creation) is returned with a nil serializer, and with all stages succeeding
the populated serializer is returned. -/
theorem newSerializer_error_propagation_witness :
    (newSerializer { sampleOutcomes with write := some "disk full" } sampleSet sampleCfg
      sampleWorld).1 = (none, some "disk full") ∧
    (newSerializer sampleOutcomes sampleSet sampleCfg sampleWorld).1 =
      (some sampleOutcomes.populated, none) :=
  ⟨(newSerializer_error_propagation { sampleOutcomes with write := some "disk full" }
      sampleSet sampleCfg sampleWorld).2.2.1 "disk full" (by decide) (by decide) (by decide),
   (newSerializer_error_propagation sampleOutcomes sampleSet sampleCfg
      sampleWorld).2.2.2.2.2.1 (by decide)⟩

/-- A list splits in one way only around an element that occurs once. -/
theorem split_unique {α : Type} (A B pre post : List α) (x y : α) (hA : y ∉ A)
    (h : A ++ x :: B = pre ++ y :: post) (hB : y ∉ B) : pre = A := by
  induction A generalizing pre with
  | nil =>
    cases pre with
    | nil => rfl
    | cons p ps =>
      simp only [List.nil_append, List.cons_append, List.cons.injEq] at h
      exact absurd (h.2 ▸ (by simp : y ∈ ps ++ y :: post)) hB
  | cons a as ih =>
    cases pre with
    | nil =>
      simp only [List.nil_append, List.cons_append, List.cons.injEq] at h
      exact absurd (h.1 ▸ (by simp : a ∈ a :: as)) hA
    | cons p ps =>
      simp only [List.cons_append, List.cons.injEq] at h
      rw [ih ps (fun hy => hA (List.mem_cons_of_mem _ hy)) h.2, h.1]

/-- C5: for every combination of stage outcomes, a stage of `newSerializer`
runs only if every earlier stage succeeded: whenever the calling thread
creates the file, the temporary directory has been created before; whenever
it writes, the directory and the file have been created before; whenever it
builds the component graph (`fx.New`), the directory, the file creation and
the write have succeeded and were made before it; whenever it launches the
goroutine that invokes `Start`, all four stages have succeeded and `fx.New`
was made before it; the calling thread itself never invokes `Start`; `Start` is
invoked only by that goroutine, after a launch with all four stages succeeded;
and on the failure of any stage the goroutine is not launched, its log stays
empty and `Start` is invoked by nobody. -/
theorem newSerializer_stage_order (o : Outcomes) (set : TelemetrySettings)
    (cfg : Config) (w : World) :
    (∀ pre post p,
      eventsSince w (newSerializer o set cfg w).2 = pre ++ Event.create p :: post →
        mkdirTempErr o w.fs = none ∧ Event.mkdirTemp ∈ pre) ∧
    (∀ pre post p,
      eventsSince w (newSerializer o set cfg w).2 = pre ++ Event.writeString p :: post →
        (mkdirTempErr o w.fs = none ∧ o.create = none) ∧
        Event.mkdirTemp ∈ pre ∧ Event.create p ∈ pre) ∧
    (∀ pre post p,
      eventsSince w (newSerializer o set cfg w).2 = pre ++ Event.fxNew p :: post →
        (mkdirTempErr o w.fs = none ∧ o.create = none ∧ o.write = none) ∧
        Event.mkdirTemp ∈ pre ∧ Event.create p ∈ pre ∧ Event.writeString p ∈ pre) ∧
    (∀ pre post,
      eventsSince w (newSerializer o set cfg w).2 = pre ++ Event.go :: post →
        stagesSucceed o w.fs ∧ ∃ p, Event.fxNew p ∈ pre) ∧
    Event.start ∉ eventsSince w (newSerializer o set cfg w).2 ∧
    (Event.start ∈ spawnedSince w (newSerializer o set cfg w).2 →
      stagesSucceed o w.fs ∧ Event.go ∈ eventsSince w (newSerializer o set cfg w).2) ∧
    (¬ stagesSucceed o w.fs →
      Event.go ∉ eventsSince w (newSerializer o set cfg w).2 ∧
      Event.start ∉ spawnedSince w (newSerializer o set cfg w).2 ∧
      spawnedSince w (newSerializer o set cfg w).2 = []) := by
  unfold stagesSucceed eventsSince spawnedSince
  cases hm : osMkdirTemp o w.fs with
  | error e0 =>
    have h1 := newSerializer_mkdir_fails o set cfg w e0 hm
    have h2 := osMkdirTemp_error o w.fs e0 hm
    simp only [h1, h2, List.drop_left, List.drop_length]
    refine ⟨?_, ?_, ?_, ?_, ?_, ?_, ?_⟩
    · intro pre post p h
      have hmem : Event.create p ∈ _ :=
        h ▸ (by simp : Event.create p ∈ pre ++ Event.create p :: post)
      simp at hmem
    · intro pre post p h
      have hmem : Event.writeString p ∈ _ :=
        h ▸ (by simp : Event.writeString p ∈ pre ++ Event.writeString p :: post)
      simp at hmem
    · intro pre post p h
      have hmem : Event.fxNew p ∈ _ :=
        h ▸ (by simp : Event.fxNew p ∈ pre ++ Event.fxNew p :: post)
      simp at hmem
    · intro pre post h
      have hmem : Event.go ∈ _ :=
        h ▸ (by simp : Event.go ∈ pre ++ Event.go :: post)
      simp at hmem
    · simp
    · simp
    · simp
  | ok r =>
    obtain ⟨d, fs1⟩ := r
    have h2 := (osMkdirTemp_ok o w.fs d fs1 hm).2.2
    cases hc : o.create with
    | some e1 =>
      obtain ⟨-, ht, hsp⟩ := newSerializer_create_fails o set cfg w d fs1 e1 hm hc
      simp only [ht, hsp, h2, List.drop_left, List.drop_length]
      refine ⟨?_, ?_, ?_, ?_, ?_, ?_, ?_⟩
      · intro pre post p h
        have hmem : Event.create p ∈ _ :=
          h ▸ (by simp : Event.create p ∈ pre ++ Event.create p :: post)
        have hp : p = d ++ ["datadog.yaml"] := by simpa using hmem
        subst hp
        have hpre := split_unique
          [Event.mkdirTemp]
          _ pre post _ _ (by simp) h (by simp)
        simp [hpre]
      · intro pre post p h
        have hmem : Event.writeString p ∈ _ :=
          h ▸ (by simp : Event.writeString p ∈ pre ++ Event.writeString p :: post)
        simp at hmem
      · intro pre post p h
        have hmem : Event.fxNew p ∈ _ :=
          h ▸ (by simp : Event.fxNew p ∈ pre ++ Event.fxNew p :: post)
        simp at hmem
      · intro pre post h
        have hmem : Event.go ∈ _ :=
          h ▸ (by simp : Event.go ∈ pre ++ Event.go :: post)
        simp at hmem
      · simp
      · simp
      · simp
    | none =>
      cases hw : o.write with
      | some e2 =>
        obtain ⟨-, ht, hsp⟩ := newSerializer_write_fails o set cfg w d fs1 e2 hm hc hw
        simp only [ht, hsp, h2, List.drop_left, List.drop_length]
        refine ⟨?_, ?_, ?_, ?_, ?_, ?_, ?_⟩
        · intro pre post p h
          have hmem : Event.create p ∈ _ :=
            h ▸ (by simp : Event.create p ∈ pre ++ Event.create p :: post)
          have hp : p = d ++ ["datadog.yaml"] := by simpa using hmem
          subst hp
          have hpre := split_unique
            [Event.mkdirTemp]
            _ pre post _ _ (by simp) h (by simp)
          simp [hpre]
        · intro pre post p h
          have hmem : Event.writeString p ∈ _ :=
            h ▸ (by simp : Event.writeString p ∈ pre ++ Event.writeString p :: post)
          have hp : p = d ++ ["datadog.yaml"] := by simpa using hmem
          subst hp
          have hpre := split_unique
            [Event.mkdirTemp, Event.create (d ++ ["datadog.yaml"])]
            _ pre post _ _ (by simp) h (by simp)
          simp [hpre]
        · intro pre post p h
          have hmem : Event.fxNew p ∈ _ :=
            h ▸ (by simp : Event.fxNew p ∈ pre ++ Event.fxNew p :: post)
          simp at hmem
        · intro pre post h
          have hmem : Event.go ∈ _ :=
            h ▸ (by simp : Event.go ∈ pre ++ Event.go :: post)
          simp at hmem
        · simp
        · simp
        · simp
      | none =>
        cases ha : o.appErr with
        | some e3 =>
          obtain ⟨-, ht, hsp⟩ := newSerializer_app_fails o set cfg w d fs1 e3 hm hc hw ha
          simp only [ht, hsp, h2, List.drop_left, List.drop_length]
          refine ⟨?_, ?_, ?_, ?_, ?_, ?_, ?_⟩
          · intro pre post p h
            have hmem : Event.create p ∈ _ :=
              h ▸ (by simp : Event.create p ∈ pre ++ Event.create p :: post)
            have hp : p = d ++ ["datadog.yaml"] := by simpa using hmem
            subst hp
            have hpre := split_unique
              [Event.mkdirTemp]
              _ pre post _ _ (by simp) h (by simp)
            simp [hpre]
          · intro pre post p h
            have hmem : Event.writeString p ∈ _ :=
              h ▸ (by simp : Event.writeString p ∈ pre ++ Event.writeString p :: post)
            have hp : p = d ++ ["datadog.yaml"] := by simpa using hmem
            subst hp
            have hpre := split_unique
              [Event.mkdirTemp, Event.create (d ++ ["datadog.yaml"])]
              _ pre post _ _ (by simp) h (by simp)
            simp [hpre]
          · intro pre post p h
            have hmem : Event.fxNew p ∈ _ :=
              h ▸ (by simp : Event.fxNew p ∈ pre ++ Event.fxNew p :: post)
            have hp : p = d ++ ["datadog.yaml"] := by simpa using hmem
            subst hp
            have hpre := split_unique
              [Event.mkdirTemp, Event.create (d ++ ["datadog.yaml"]), Event.writeString (d ++ ["datadog.yaml"])]
              _ pre post _ _ (by simp) h (by simp)
            simp [hpre]
          · intro pre post h
            have hmem : Event.go ∈ _ :=
              h ▸ (by simp : Event.go ∈ pre ++ Event.go :: post)
            simp at hmem
          · simp
          · simp
          · simp
        | none =>
          obtain ⟨-, ht, hsp⟩ := newSerializer_succeeds o set cfg w d fs1 hm hc hw ha
          simp only [ht, hsp, h2, List.drop_left, List.drop_length]
          refine ⟨?_, ?_, ?_, ?_, ?_, ?_, ?_⟩
          · intro pre post p h
            have hmem : Event.create p ∈ _ :=
              h ▸ (by simp : Event.create p ∈ pre ++ Event.create p :: post)
            have hp : p = d ++ ["datadog.yaml"] := by simpa using hmem
            subst hp
            have hpre := split_unique
              [Event.mkdirTemp]
              _ pre post _ _ (by simp) h (by simp)
            simp [hpre]
          · intro pre post p h
            have hmem : Event.writeString p ∈ _ :=
              h ▸ (by simp : Event.writeString p ∈ pre ++ Event.writeString p :: post)
            have hp : p = d ++ ["datadog.yaml"] := by simpa using hmem
            subst hp
            have hpre := split_unique
              [Event.mkdirTemp, Event.create (d ++ ["datadog.yaml"])]
              _ pre post _ _ (by simp) h (by simp)
            simp [hpre]
          · intro pre post p h
            have hmem : Event.fxNew p ∈ _ :=
              h ▸ (by simp : Event.fxNew p ∈ pre ++ Event.fxNew p :: post)
            have hp : p = d ++ ["datadog.yaml"] := by simpa using hmem
            subst hp
            have hpre := split_unique
              [Event.mkdirTemp, Event.create (d ++ ["datadog.yaml"]), Event.writeString (d ++ ["datadog.yaml"])]
              _ pre post _ _ (by simp) h (by simp)
            simp [hpre]
          · intro pre post h
            have hpre := split_unique
              [Event.mkdirTemp, Event.create (d ++ ["datadog.yaml"]), Event.writeString (d ++ ["datadog.yaml"]), Event.fxNew (d ++ ["datadog.yaml"]), Event.print "### done with app\n"]
              _ pre post _ _ (by simp) h (by simp)
            simp [hpre]
          · simp
          · simp
          · simp

/-- C5 at sample inputs: with graph resolution failing, the goroutine is not
launched and `Start` is not invoked. -/
theorem newSerializer_stage_order_witness :
    ¬ stagesSucceed { sampleOutcomes with appErr := some "cycle" } sampleWorld.fs ∧
    Event.go ∉ eventsSince sampleWorld
      (newSerializer { sampleOutcomes with appErr := some "cycle" } sampleSet sampleCfg
        sampleWorld).2 ∧
    Event.start ∉ spawnedSince sampleWorld
      (newSerializer { sampleOutcomes with appErr := some "cycle" } sampleSet sampleCfg
        sampleWorld).2 ∧
    spawnedSince sampleWorld
      (newSerializer { sampleOutcomes with appErr := some "cycle" } sampleSet sampleCfg
        sampleWorld).2 = [] :=
  ⟨by decide,
   (newSerializer_stage_order { sampleOutcomes with appErr := some "cycle" } sampleSet
      sampleCfg sampleWorld).2.2.2.2.2.2 (by decide)⟩

/-- C6: for all inputs and all outcomes of the storage and graph-resolution
stages, replacing the outcome of the forwarder's `Start` by any other leaves
the pair returned by `newSerializer` unchanged; when all four stages succeed
that pair is the populated serializer with a nil error. -/
theorem newSerializer_start_independent (o : Outcomes) (set : TelemetrySettings)
    (cfg : Config) (w : World) (st : Option Error) :
    (newSerializer { o with start := st } set cfg w).1 = (newSerializer o set cfg w).1 ∧
    (stagesSucceed o w.fs →
      (newSerializer { o with start := st } set cfg w).1 = (some o.populated, none)) := by
  have hsame : osMkdirTemp { o with start := st } w.fs = osMkdirTemp o w.fs := rfl
  unfold stagesSucceed
  cases hm : osMkdirTemp o w.fs with
  | error e0 =>
    have h2 := osMkdirTemp_error o w.fs e0 hm
    rw [newSerializer_mkdir_fails o set cfg w e0 hm,
      newSerializer_mkdir_fails { o with start := st } set cfg w e0 (hsame.trans hm)]
    simp [h2]
  | ok r =>
    obtain ⟨d, fs1⟩ := r
    have hm2 := hsame.trans hm
    rcases Option.eq_none_or_eq_some o.create with hc | ⟨e1, hc⟩
    · rcases Option.eq_none_or_eq_some o.write with hw | ⟨e2, hw⟩
      · rcases Option.eq_none_or_eq_some o.appErr with ha | ⟨e3, ha⟩
        · rw [(newSerializer_succeeds o set cfg w d fs1 hm hc hw ha).1,
            (newSerializer_succeeds { o with start := st } set cfg w d fs1 hm2 hc hw ha).1]
          simp
        · rw [(newSerializer_app_fails o set cfg w d fs1 e3 hm hc hw ha).1,
            (newSerializer_app_fails { o with start := st } set cfg w d fs1 e3 hm2 hc hw
              ha).1]
          simp [ha]
      · rw [(newSerializer_write_fails o set cfg w d fs1 e2 hm hc hw).1,
          (newSerializer_write_fails { o with start := st } set cfg w d fs1 e2 hm2 hc hw).1]
        simp [hw]
    · rw [(newSerializer_create_fails o set cfg w d fs1 e1 hm hc).1,
        (newSerializer_create_fails { o with start := st } set cfg w d fs1 e1 hm2 hc).1]
      simp [hc]

/-- C6 at sample inputs: with all stages succeeding and `Start` failing, the
populated serializer is returned with a nil error. -/
theorem newSerializer_start_independent_witness :
    stagesSucceed sampleOutcomes sampleWorld.fs ∧
    (newSerializer { sampleOutcomes with start := some "no endpoint" } sampleSet sampleCfg
      sampleWorld).1 = (some sampleOutcomes.populated, none) :=
  ⟨by decide,
   (newSerializer_start_independent sampleOutcomes sampleSet sampleCfg sampleWorld
      (some "no endpoint")).2 (by decide)⟩

/-- Every extension of a path lies beneath it. -/
theorem isUnder_self_append (d x : Path) : isUnder d (d ++ x) = true := by
  simp [isUnder]

/-- A path lies beneath itself. -/
theorem isUnder_self (d : Path) : isUnder d d = true := by
  simp [isUnder]

/-- File system after `newSerializer` beneath the temporary directory, when
the deferred removal succeeds: nothing is left. -/
theorem newSerializer_fs_under (o : Outcomes) (set : TelemetrySettings) (cfg : Config)
    (w : World) (d : Path) (fs1 : FS) (hm : osMkdirTemp o w.fs = .ok (d, fs1))
    (hrm : o.removeAll = none) (q : Path) (hq : isUnder d q = true) :
    (newSerializer o set cfg w).2.fs q = none := by
  simp only [newSerializer, World.call, hm, osRemoveAll, hrm, hq, if_true]

/-- File system after `newSerializer` outside the temporary directory, when
the collaborators leave those paths alone: as before the call. -/
theorem newSerializer_fs_outside (o : Outcomes) (set : TelemetrySettings) (cfg : Config)
    (w : World) (d : Path) (fs1 : FS) (hm : osMkdirTemp o w.fs = .ok (d, fs1))
    (hg : leavesOutside d (o.graphEffect (filepathJoin d "datadog.yaml")))
    (hs : leavesOutside d o.startEffect) (q : Path) (hq : isUnder d q = false) :
    (newSerializer o set cfg w).2.fs q = w.fs q := by
  obtain ⟨-, hfs1, -⟩ := osMkdirTemp_ok o w.fs d fs1 hm
  have hqd : q ≠ d := by
    intro h
    rw [h, isUnder_self d] at hq
    exact Bool.noConfusion hq
  have hqf : q ≠ d ++ ["datadog.yaml"] := by
    intro h
    rw [h, isUnder_self_append d ["datadog.yaml"]] at hq
    exact Bool.noConfusion hq
  have hg2 : ∀ fs, o.graphEffect (d ++ ["datadog.yaml"]) fs q = fs q := fun fs => hg fs q hq
  have hs2 : ∀ fs, o.startEffect fs q = fs q := fun fs => hs fs q hq
  simp only [newSerializer, World.call, hm, osRemoveAll]
  simp only [newSerializerCreate, newSerializerWrite, startForwarder, filepathJoin,
    World.call, hfs1]
  cases o.removeAll <;> cases o.create <;> cases o.write <;> cases o.appErr <;>
    cases o.start <;> simp [FS.set, hqd, hqf, hq, hg2, hs2]

set_option maxRecDepth 100000 in
/-- C7 as stated fails: when the deferred `os.RemoveAll` fails (the program
discards its error), the temporary directory and `datadog.yaml` still exist
after `newSerializer` has returned; and when building the component graph
writes a file elsewhere, another path has changed. -/
theorem newSerializer_no_leak_counterexample :
    ((newSerializer { sampleOutcomes with removeAll := some "permission denied" }
        sampleSet sampleCfg sampleWorld).2.fs ["tmp", "conf123"] = some Node.dir ∧
     (newSerializer { sampleOutcomes with removeAll := some "permission denied" }
        sampleSet sampleCfg sampleWorld).2.fs ["tmp", "conf123", "datadog.yaml"] =
        some (Node.file (yamldata "info" "datadoghq.com" ""))) ∧
    (sampleWorld.fs ["tmp", "agent.pid"] = none ∧
     (newSerializer
        { sampleOutcomes with
          graphEffect := fun _ fs => fs.set ["tmp", "agent.pid"] (Node.file "1") }
        sampleSet sampleCfg sampleWorld).2.fs ["tmp", "agent.pid"] =
        some (Node.file "1")) := by
  refine ⟨⟨?_, ?_⟩, ?_, ?_⟩ <;> rfl

/-- C7 (amended): for every outcome of the stages in which the deferred
`os.RemoveAll` succeeds, after `newSerializer` has returned the temporary
directory created by the call and the file `datadog.yaml` inside it do not
exist; and, over a well-formed file-system state, when building the component
graph and the forwarder's `Start` change no path outside that directory, every
path holds what it held before the call. -/
theorem newSerializer_no_leak (o : Outcomes) (set : TelemetrySettings) (cfg : Config)
    (w : World) (hrm : o.removeAll = none) :
    (∀ d fs1, osMkdirTemp o w.fs = .ok (d, fs1) →
      fs1 d = some Node.dir ∧
      (newSerializer o set cfg w).2.fs d = none ∧
      (newSerializer o set cfg w).2.fs (filepathJoin d "datadog.yaml") = none) ∧
    (w.fs.wellFormed →
      leavesOutside (tempDirOf o)
        (o.graphEffect (filepathJoin (tempDirOf o) "datadog.yaml")) →
      leavesOutside (tempDirOf o) o.startEffect →
      ∀ p, (newSerializer o set cfg w).2.fs p = w.fs p) := by
  constructor
  · intro d fs1 hm
    refine ⟨?_, ?_, ?_⟩
    · rw [(osMkdirTemp_ok o w.fs d fs1 hm).2.1]
      simp [FS.set]
    · exact newSerializer_fs_under o set cfg w d fs1 hm hrm d (isUnder_self d)
    · exact newSerializer_fs_under o set cfg w d fs1 hm hrm _
        (isUnder_self_append d ["datadog.yaml"])
  · intro hwf hg hs p
    cases hm : osMkdirTemp o w.fs with
    | error e0 => rw [newSerializer_mkdir_fails o set cfg w e0 hm]
    | ok r =>
      obtain ⟨d, fs1⟩ := r
      have hd := osMkdirTemp_dir o w.fs d fs1 hm
      rw [← hd] at hg hs
      by_cases hq : isUnder d p = true
      · rw [newSerializer_fs_under o set cfg w d fs1 hm hrm p hq]
        exact (hwf d p hq (osMkdirTemp_ok o w.fs d fs1 hm).1).symm
      · exact newSerializer_fs_outside o set cfg w d fs1 hm hg hs p (by simpa using hq)

/-- The sample file system is well formed. -/
theorem sampleFS_wellFormed : sampleFS.wellFormed := by
  intro d p hdp hd
  have hd1 : d ≠ [] := by
    intro h
    simp [h, sampleFS] at hd
  have hd2 : d ≠ ["tmp"] := by
    intro h
    simp [h, sampleFS] at hd
  have hp1 : p ≠ [] := by
    intro h
    subst h
    cases d with
    | nil => exact hd1 rfl
    | cons a as => simp [isUnder] at hdp
  have hp2 : p ≠ ["tmp"] := by
    intro h
    subst h
    cases d with
    | nil => exact hd1 rfl
    | cons a as =>
      cases as with
      | nil =>
        simp [isUnder] at hdp
        exact hd2 (by simp [hdp])
      | cons b bs => simp [isUnder] at hdp
  simp [sampleFS, hp1, hp2]

/-- C7 (amended) at sample inputs: with the write failing and the removal
succeeding, the directory `/tmp/conf123` and its file are gone after the call
and `/tmp` still is a directory. -/
theorem newSerializer_no_leak_witness :
    (newSerializer { sampleOutcomes with write := some "disk full", shortWrite := 5 }
      sampleSet sampleCfg sampleWorld).2.fs ["tmp", "conf123"] = none ∧
    (newSerializer { sampleOutcomes with write := some "disk full", shortWrite := 5 }
      sampleSet sampleCfg sampleWorld).2.fs ["tmp", "conf123", "datadog.yaml"] = none ∧
    (newSerializer { sampleOutcomes with write := some "disk full", shortWrite := 5 }
      sampleSet sampleCfg sampleWorld).2.fs ["tmp"] = some Node.dir :=
  ⟨((newSerializer_no_leak { sampleOutcomes with write := some "disk full", shortWrite := 5 }
      sampleSet sampleCfg sampleWorld rfl).1 ["tmp", "conf123"]
      (sampleFS.set ["tmp", "conf123"] Node.dir) rfl).2.1,
   ((newSerializer_no_leak { sampleOutcomes with write := some "disk full", shortWrite := 5 }
      sampleSet sampleCfg sampleWorld rfl).1 ["tmp", "conf123"]
      (sampleFS.set ["tmp", "conf123"] Node.dir) rfl).2.2,
   (newSerializer_no_leak { sampleOutcomes with write := some "disk full", shortWrite := 5 }
      sampleSet sampleCfg sampleWorld rfl).2 sampleFS_wellFormed (fun _ _ _ => rfl)
      (fun _ _ _ => rfl) ["tmp"]⟩

/-! ## The program -/

/-- Function `newSerializer` makes no call of `SendIterableSeries`. -/
theorem newSerializer_no_send (o : Outcomes) (set : TelemetrySettings) (cfg : Config)
    (w : World) :
    ∃ evs, (newSerializer o set cfg w).2.trace = w.trace ++ evs ∧
      evs.countP Event.isSend = 0 := by
  cases hm : osMkdirTemp o w.fs with
  | error e0 =>
    rw [newSerializer_mkdir_fails o set cfg w e0 hm]
    exact ⟨_, rfl, by simp [Event.isSend]⟩
  | ok r =>
    obtain ⟨d, fs1⟩ := r
    rcases Option.eq_none_or_eq_some o.create with hc | ⟨e1, hc⟩
    · rcases Option.eq_none_or_eq_some o.write with hw | ⟨e2, hw⟩
      · rcases Option.eq_none_or_eq_some o.appErr with ha | ⟨e3, ha⟩
        · exact ⟨_, (newSerializer_succeeds o set cfg w d fs1 hm hc hw ha).2.1,
            by simp [Event.isSend]⟩
        · exact ⟨_, (newSerializer_app_fails o set cfg w d fs1 e3 hm hc hw ha).2.1,
            by simp [Event.isSend]⟩
      · exact ⟨_, (newSerializer_write_fails o set cfg w d fs1 e2 hm hc hw).2.1,
          by simp [Event.isSend]⟩
    · exact ⟨_, (newSerializer_create_fails o set cfg w d fs1 e1 hm hc).2.1,
        by simp [Event.isSend]⟩

/-- When `newSerializer` returns an error, the serializer it returns is nil. -/
theorem newSerializer_error_nil (o : Outcomes) (set : TelemetrySettings) (cfg : Config)
    (w : World) (e : Error) (h : (newSerializer o set cfg w).1.2 = some e) :
    (newSerializer o set cfg w).1.1 = none := by
  cases hm : osMkdirTemp o w.fs with
  | error e0 => rw [newSerializer_mkdir_fails o set cfg w e0 hm]
  | ok r =>
    obtain ⟨d, fs1⟩ := r
    rcases Option.eq_none_or_eq_some o.create with hc | ⟨e1, hc⟩
    · rcases Option.eq_none_or_eq_some o.write with hw | ⟨e2, hw⟩
      · rcases Option.eq_none_or_eq_some o.appErr with ha | ⟨e3, ha⟩
        · rw [(newSerializer_succeeds o set cfg w d fs1 hm hc hw ha).1] at h
          simp at h
        · rw [(newSerializer_app_fails o set cfg w d fs1 e3 hm hc hw ha).1]
      · rw [(newSerializer_write_fails o set cfg w d fs1 e2 hm hc hw).1]
    · rw [(newSerializer_create_fails o set cfg w d fs1 e1 hm hc).1]

/-- C10: for every outcome of `newSerializer`, `main` goes on after it: it
prints the error line when an error was returned, then prints the serializer
line, then invokes `SendIterableSeries(nil)` on the returned serializer, and
that is the only invocation in the run; when `newSerializer` fails the
serializer is nil, so the submission is invoked on the nil serializer right
after the error line and the line `### serializer: <nil>`. -/
theorem main_submits_after_bootstrap (o : Outcomes) (env : Env) (w : World) :
    (main o env w).trace =
      (newSerializer o ⟨env.nopLevel⟩ ⟨⟨"datadoghq.com", env.DD_API_KEY⟩⟩ w).2.trace ++
      (match (newSerializer o ⟨env.nopLevel⟩ ⟨⟨"datadoghq.com", env.DD_API_KEY⟩⟩ w).1.2 with
       | some e => [Event.print (bootstrapErrorLine e)]
       | none => []) ++
      [Event.print (serializerLine o
          (newSerializer o ⟨env.nopLevel⟩ ⟨⟨"datadoghq.com", env.DD_API_KEY⟩⟩ w).1.1),
       Event.sendIterableSeries
          (newSerializer o ⟨env.nopLevel⟩ ⟨⟨"datadoghq.com", env.DD_API_KEY⟩⟩ w).1.1] ++
      (match o.send (newSerializer o ⟨env.nopLevel⟩ ⟨⟨"datadoghq.com", env.DD_API_KEY⟩⟩ w).1.1 with
       | SendResult.err e => [Event.print (submissionErrorLine e)]
       | _ => []) ∧
    (eventsSince w (main o env w)).countP Event.isSend = 1 ∧
    (∀ e, (newSerializer o ⟨env.nopLevel⟩ ⟨⟨"datadoghq.com", env.DD_API_KEY⟩⟩ w).1.2 = some e →
      (newSerializer o ⟨env.nopLevel⟩ ⟨⟨"datadoghq.com", env.DD_API_KEY⟩⟩ w).1.1 = none ∧
      (main o env w).trace =
        (newSerializer o ⟨env.nopLevel⟩ ⟨⟨"datadoghq.com", env.DD_API_KEY⟩⟩ w).2.trace ++
        [Event.print (bootstrapErrorLine e), Event.print "### serializer: <nil>\n",
         Event.sendIterableSeries none] ++
        (match o.send none with
         | SendResult.err e2 => [Event.print (submissionErrorLine e2)]
         | _ => [])) := by
  have htrace : (main o env w).trace =
      (newSerializer o ⟨env.nopLevel⟩ ⟨⟨"datadoghq.com", env.DD_API_KEY⟩⟩ w).2.trace ++
      (match (newSerializer o ⟨env.nopLevel⟩ ⟨⟨"datadoghq.com", env.DD_API_KEY⟩⟩ w).1.2 with
       | some e => [Event.print (bootstrapErrorLine e)]
       | none => []) ++
      [Event.print (serializerLine o
          (newSerializer o ⟨env.nopLevel⟩ ⟨⟨"datadoghq.com", env.DD_API_KEY⟩⟩ w).1.1),
       Event.sendIterableSeries
          (newSerializer o ⟨env.nopLevel⟩ ⟨⟨"datadoghq.com", env.DD_API_KEY⟩⟩ w).1.1] ++
      (match o.send (newSerializer o ⟨env.nopLevel⟩ ⟨⟨"datadoghq.com", env.DD_API_KEY⟩⟩ w).1.1 with
       | SendResult.err e => [Event.print (submissionErrorLine e)]
       | _ => []) := by
    simp only [main]
    generalize newSerializer o ⟨env.nopLevel⟩ ⟨⟨"datadoghq.com", env.DD_API_KEY⟩⟩ w = r
    obtain ⟨⟨s, err⟩, w1⟩ := r
    cases err <;> cases hs : o.send s <;> simp [World.call, hs]
  refine ⟨htrace, ?_, ?_⟩
  · obtain ⟨evs, hevs, hcount⟩ :=
      newSerializer_no_send o ⟨env.nopLevel⟩ ⟨⟨"datadoghq.com", env.DD_API_KEY⟩⟩ w
    unfold eventsSince
    rw [htrace, hevs]
    simp only [List.append_assoc, List.drop_left, List.countP_append, hcount]
    cases (newSerializer o ⟨env.nopLevel⟩ ⟨⟨"datadoghq.com", env.DD_API_KEY⟩⟩ w).1.2 <;>
      cases o.send (newSerializer o ⟨env.nopLevel⟩ ⟨⟨"datadoghq.com", env.DD_API_KEY⟩⟩ w).1.1 <;>
      simp [Event.isSend]
  · intro e he
    have hnil := newSerializer_error_nil o ⟨env.nopLevel⟩
      ⟨⟨"datadoghq.com", env.DD_API_KEY⟩⟩ w e he
    refine ⟨hnil, ?_⟩
    rw [htrace, he, hnil]
    have hline : serializerLine o none = "### serializer: <nil>\n" := rfl
    simp only [hline, List.append_assoc, List.cons_append, List.nil_append]

/-- C10 at sample inputs: with the temporary directory failing, `main` prints
the error line and the serializer line and then submits on the nil
serializer. -/
theorem main_submits_after_bootstrap_witness :
    (main { sampleOutcomes with mkdirTemp := some "read-only" } ⟨"", "info"⟩
        sampleWorld).trace =
      [Event.mkdirTemp, Event.print "### error: read-only\n",
       Event.print "### serializer: <nil>\n", Event.sendIterableSeries none] :=
  ((main_submits_after_bootstrap { sampleOutcomes with mkdirTemp := some "read-only" }
    ⟨"", "info"⟩ sampleWorld).2.2 "read-only" rfl).2

end SerializerApp
